import Mathlib

/-!
Shallow embedding of the wood density / weight calculator repository.

The repository holds two parallel implementations of the same calculator:
* `wood_density.py` — a shrinkage-factor form of density at moisture content;
* `app.py` — a ratio form of density at moisture content.

Python floats are modelled by `ℚ` (all formulas are field arithmetic on
decimal literals), Python exceptions by an explicit error type:
`TypeError` becomes `CalcError.invalidType`, `ValueError` becomes
`CalcError.invalidArgument`, and Python's `ZeroDivisionError` (raised by
`x / 0.0`) becomes `CalcError.zeroDivision`.  A division is therefore
preceded by an explicit test of its denominator, in the evaluation order
of the Python source.  The duck-typed `moisture_content` argument (which
may be a number or, e.g., a text string) is modelled by `PyValue`.
-/

/-- Mirrors the `WoodProperties` dataclass (both files): name, specific
gravity and fibre saturation point, with no validation on construction. -/
structure WoodProperties where
  name : String
  specific_gravity : ℚ
  fibre_saturation_point : ℚ
deriving DecidableEq

/-- Mirrors the `ElementProperties` dataclass (both files): name and the
three dimensions in meters, with no validation on construction. -/
structure ElementProperties where
  name : String
  width : ℚ
  depth : ℚ
  length : ℚ
deriving DecidableEq

/-- A dynamically typed Python value passed as `moisture_content`:
either a number or a non-numeric value such as a string. -/
inductive PyValue where
  | num (x : ℚ)
  | str (s : String)
deriving DecidableEq

/-- The error outcomes of the calculators: `TypeError`,
`ValueError` and `ZeroDivisionError` of the Python source. -/
inductive CalcError where
  | invalidType
  | invalidArgument
  | zeroDivision
deriving DecidableEq

namespace WoodDensity

/-- `WeightCalculator.calculate_density_at_moisture_content` of
`src/wood_density.py` (the shrinkage-factor form): after the type check,
the non-negativity checks on moisture content and fibre saturation point,
it sets `a = (fsp - mc) / fsp` when `mc <= fsp` (raising
`ZeroDivisionError` when `fsp = 0`) and `a = 1.0` otherwise, and returns
`sg / (1 + 0.265 * a * sg) * 1000`. -/
def calculate_density_at_moisture_content (m : WoodProperties)
    (moisture_content : PyValue) : Except CalcError ℚ :=
  match moisture_content with
  | .str _ => .error .invalidType
  | .num mc =>
    if mc < 0 then .error .invalidArgument
    else if m.fibre_saturation_point < 0 then .error .invalidArgument
    else if mc ≤ m.fibre_saturation_point then
      if m.fibre_saturation_point = 0 then .error .zeroDivision
      else
        let a := (m.fibre_saturation_point - mc) / m.fibre_saturation_point
        if 1 + 0.265 * a * m.specific_gravity = 0 then .error .zeroDivision
        else .ok (m.specific_gravity / (1 + 0.265 * a * m.specific_gravity) * 1000)
    else
      let a : ℚ := 1
      if 1 + 0.265 * a * m.specific_gravity = 0 then .error .zeroDivision
      else .ok (m.specific_gravity / (1 + 0.265 * a * m.specific_gravity) * 1000)

/-- `WeightCalculator.calculate_weight_at_moisture_content` of
`src/wood_density.py`: type and sign checks on the moisture content,
non-negativity check on the three dimensions, then
`volume * density` with `volume = width * depth * length`. -/
def calculate_weight_at_moisture_content (m : WoodProperties)
    (e : ElementProperties) (moisture_content : PyValue) : Except CalcError ℚ :=
  match moisture_content with
  | .str _ => .error .invalidType
  | .num mc =>
    if mc < 0 then .error .invalidArgument
    else if e.width < 0 ∨ e.depth < 0 ∨ e.length < 0 then .error .invalidArgument
    else
      match calculate_density_at_moisture_content m moisture_content with
      | .error err => .error err
      | .ok density => .ok (e.width * e.depth * e.length * density)

end WoodDensity

namespace App

/-- `WeightCalculator.calculate_density_at_moisture_content` of
`src/app.py` (the ratio form): after the same three checks, it returns
`sg * 1000 * ((fsp / 100) + 1) / ((fsp / 100) * sg + 1)` when `mc > fsp`
and `sg * 1000 * ((mc / 100) + 1) / ((fsp / 100) * sg + 1)` otherwise. -/
def calculate_density_at_moisture_content (m : WoodProperties)
    (moisture_content : PyValue) : Except CalcError ℚ :=
  match moisture_content with
  | .str _ => .error .invalidType
  | .num mc =>
    if mc < 0 then .error .invalidArgument
    else if m.fibre_saturation_point < 0 then .error .invalidArgument
    else if mc > m.fibre_saturation_point then
      if (m.fibre_saturation_point / 100) * m.specific_gravity + 1 = 0 then
        .error .zeroDivision
      else
        .ok (m.specific_gravity * 1000 * ((m.fibre_saturation_point / 100) + 1) /
          ((m.fibre_saturation_point / 100) * m.specific_gravity + 1))
    else
      if (m.fibre_saturation_point / 100) * m.specific_gravity + 1 = 0 then
        .error .zeroDivision
      else
        .ok (m.specific_gravity * 1000 * ((mc / 100) + 1) /
          ((m.fibre_saturation_point / 100) * m.specific_gravity + 1))

/-- `WeightCalculator.calculate_weight_at_moisture_content` of
`src/app.py`: identical validation to the `wood_density.py` version,
delegating to the ratio-form density. -/
def calculate_weight_at_moisture_content (m : WoodProperties)
    (e : ElementProperties) (moisture_content : PyValue) : Except CalcError ℚ :=
  match moisture_content with
  | .str _ => .error .invalidType
  | .num mc =>
    if mc < 0 then .error .invalidArgument
    else if e.width < 0 ∨ e.depth < 0 ∨ e.length < 0 then .error .invalidArgument
    else
      match calculate_density_at_moisture_content m moisture_content with
      | .error err => .error err
      | .ok density => .ok (e.width * e.depth * e.length * density)

end App

/-! Evaluation lemmas: the value of each density function on the two
branches of the fibre-saturation-point comparison, once validation
passes, and the value of each weight function once its own validation
passes. -/

/-- Ratio-form density below or at the fibre saturation point. -/
theorem app_density_eval_low (m : WoodProperties) (mc : ℚ)
    (hsg : 0 ≤ m.specific_gravity) (hfsp : 0 ≤ m.fibre_saturation_point)
    (h0 : 0 ≤ mc) (hle : mc ≤ m.fibre_saturation_point) :
    App.calculate_density_at_moisture_content m (PyValue.num mc) =
      Except.ok (m.specific_gravity * 1000 * ((mc / 100) + 1) /
        ((m.fibre_saturation_point / 100) * m.specific_gravity + 1)) := by
  have h1 : (0 : ℚ) ≤ (m.fibre_saturation_point / 100) * m.specific_gravity :=
    mul_nonneg (div_nonneg hfsp (by norm_num)) hsg
  have hden : (0 : ℚ) < (m.fibre_saturation_point / 100) * m.specific_gravity + 1 := by
    linarith
  simp only [App.calculate_density_at_moisture_content, if_neg (not_lt.mpr h0),
    if_neg (not_lt.mpr hfsp), if_neg (not_lt.mpr hle), if_neg hden.ne']

/-- Ratio-form density above the fibre saturation point: the clamped
plateau value, independent of the moisture content. -/
theorem app_density_eval_high (m : WoodProperties) (mc : ℚ)
    (hsg : 0 ≤ m.specific_gravity) (hfsp : 0 ≤ m.fibre_saturation_point)
    (hgt : m.fibre_saturation_point < mc) :
    App.calculate_density_at_moisture_content m (PyValue.num mc) =
      Except.ok (m.specific_gravity * 1000 * ((m.fibre_saturation_point / 100) + 1) /
        ((m.fibre_saturation_point / 100) * m.specific_gravity + 1)) := by
  have h0 : (0 : ℚ) ≤ mc := le_of_lt (lt_of_le_of_lt hfsp hgt)
  have h1 : (0 : ℚ) ≤ (m.fibre_saturation_point / 100) * m.specific_gravity :=
    mul_nonneg (div_nonneg hfsp (by norm_num)) hsg
  have hden : (0 : ℚ) < (m.fibre_saturation_point / 100) * m.specific_gravity + 1 := by
    linarith
  simp only [App.calculate_density_at_moisture_content, if_neg (not_lt.mpr h0),
    if_neg (not_lt.mpr hfsp), if_pos hgt, if_neg hden.ne']

/-- Shrinkage-form density below or at the fibre saturation point. -/
theorem wd_density_eval_low (m : WoodProperties) (mc : ℚ)
    (hsg : 0 ≤ m.specific_gravity) (hfsp : 0 < m.fibre_saturation_point)
    (h0 : 0 ≤ mc) (hle : mc ≤ m.fibre_saturation_point) :
    WoodDensity.calculate_density_at_moisture_content m (PyValue.num mc) =
      Except.ok (m.specific_gravity /
        (1 + 0.265 * ((m.fibre_saturation_point - mc) / m.fibre_saturation_point) *
          m.specific_gravity) * 1000) := by
  have ha : (0 : ℚ) ≤ (m.fibre_saturation_point - mc) / m.fibre_saturation_point :=
    div_nonneg (by linarith) hfsp.le
  have hden : (0 : ℚ) < 1 + 0.265 *
      ((m.fibre_saturation_point - mc) / m.fibre_saturation_point) *
      m.specific_gravity := by
    nlinarith [mul_nonneg (mul_nonneg (by norm_num : (0 : ℚ) ≤ 0.265) ha) hsg]
  simp only [WoodDensity.calculate_density_at_moisture_content, if_neg (not_lt.mpr h0),
    if_neg (not_lt.mpr hfsp.le), if_pos hle, if_neg hfsp.ne', if_neg hden.ne']

/-- Shrinkage-form density above the fibre saturation point: the code
sets `a = 1.0`, so the value is again independent of moisture content. -/
theorem wd_density_eval_high (m : WoodProperties) (mc : ℚ)
    (hsg : 0 ≤ m.specific_gravity) (hfsp : 0 ≤ m.fibre_saturation_point)
    (hgt : m.fibre_saturation_point < mc) :
    WoodDensity.calculate_density_at_moisture_content m (PyValue.num mc) =
      Except.ok (m.specific_gravity / (1 + 0.265 * 1 * m.specific_gravity) * 1000) := by
  have h0 : (0 : ℚ) ≤ mc := le_of_lt (lt_of_le_of_lt hfsp hgt)
  have hden : (0 : ℚ) < 1 + 0.265 * 1 * m.specific_gravity := by nlinarith
  simp only [WoodDensity.calculate_density_at_moisture_content, if_neg (not_lt.mpr h0),
    if_neg (not_lt.mpr hfsp), if_neg (not_le.mpr hgt), if_neg hden.ne']

/-- Once its own validation passes, the ratio-form weight is the
match of the density result. -/
theorem app_weight_eval (m : WoodProperties) (e : ElementProperties) (mc : ℚ)
    (h0 : 0 ≤ mc) (hdim : ¬(e.width < 0 ∨ e.depth < 0 ∨ e.length < 0)) :
    App.calculate_weight_at_moisture_content m e (PyValue.num mc) =
      match App.calculate_density_at_moisture_content m (PyValue.num mc) with
      | .error err => .error err
      | .ok density => .ok (e.width * e.depth * e.length * density) := by
  simp only [App.calculate_weight_at_moisture_content, if_neg (not_lt.mpr h0), if_neg hdim]

/-- Once its own validation passes, the shrinkage-form weight is the
match of the density result. -/
theorem wd_weight_eval (m : WoodProperties) (e : ElementProperties) (mc : ℚ)
    (h0 : 0 ≤ mc) (hdim : ¬(e.width < 0 ∨ e.depth < 0 ∨ e.length < 0)) :
    WoodDensity.calculate_weight_at_moisture_content m e (PyValue.num mc) =
      match WoodDensity.calculate_density_at_moisture_content m (PyValue.num mc) with
      | .error err => .error err
      | .ok density => .ok (e.width * e.depth * e.length * density) := by
  simp only [WoodDensity.calculate_weight_at_moisture_content, if_neg (not_lt.mpr h0),
    if_neg hdim]

/-- The ratio-form density succeeds on every validated input with a
non-negative specific gravity. -/
theorem app_density_ok (m : WoodProperties) (mc : ℚ)
    (hsg : 0 ≤ m.specific_gravity) (hfsp : 0 ≤ m.fibre_saturation_point)
    (h0 : 0 ≤ mc) :
    ∃ d, App.calculate_density_at_moisture_content m (PyValue.num mc) = Except.ok d := by
  rcases le_or_lt mc m.fibre_saturation_point with hle | hgt
  · exact ⟨_, app_density_eval_low m mc hsg hfsp h0 hle⟩
  · exact ⟨_, app_density_eval_high m mc hsg hfsp hgt⟩

/-- The shrinkage-form density succeeds on every validated input with a
non-negative specific gravity and positive fibre saturation point. -/
theorem wd_density_ok (m : WoodProperties) (mc : ℚ)
    (hsg : 0 ≤ m.specific_gravity) (hfsp : 0 < m.fibre_saturation_point)
    (h0 : 0 ≤ mc) :
    ∃ d, WoodDensity.calculate_density_at_moisture_content m (PyValue.num mc) =
      Except.ok d := by
  rcases le_or_lt mc m.fibre_saturation_point with hle | hgt
  · exact ⟨_, wd_density_eval_low m mc hsg hfsp h0 hle⟩
  · exact ⟨_, wd_density_eval_high m mc hsg hfsp.le hgt⟩

/-- Ratio-form weight when the density succeeds. -/
theorem app_weight_ok (m : WoodProperties) (e : ElementProperties) (mc d : ℚ)
    (h0 : 0 ≤ mc) (hdim : ¬(e.width < 0 ∨ e.depth < 0 ∨ e.length < 0))
    (hd : App.calculate_density_at_moisture_content m (PyValue.num mc) = Except.ok d) :
    App.calculate_weight_at_moisture_content m e (PyValue.num mc) =
      Except.ok (e.width * e.depth * e.length * d) := by
  rw [app_weight_eval m e mc h0 hdim, hd]

/-- Ratio-form weight when the density fails: the error is propagated. -/
theorem app_weight_err (m : WoodProperties) (e : ElementProperties) (mc : ℚ)
    (err : CalcError) (h0 : 0 ≤ mc)
    (hdim : ¬(e.width < 0 ∨ e.depth < 0 ∨ e.length < 0))
    (hd : App.calculate_density_at_moisture_content m (PyValue.num mc) = Except.error err) :
    App.calculate_weight_at_moisture_content m e (PyValue.num mc) = Except.error err := by
  rw [app_weight_eval m e mc h0 hdim, hd]

/-- Shrinkage-form weight when the density succeeds. -/
theorem wd_weight_ok (m : WoodProperties) (e : ElementProperties) (mc d : ℚ)
    (h0 : 0 ≤ mc) (hdim : ¬(e.width < 0 ∨ e.depth < 0 ∨ e.length < 0))
    (hd : WoodDensity.calculate_density_at_moisture_content m (PyValue.num mc) =
      Except.ok d) :
    WoodDensity.calculate_weight_at_moisture_content m e (PyValue.num mc) =
      Except.ok (e.width * e.depth * e.length * d) := by
  rw [wd_weight_eval m e mc h0 hdim, hd]

/-- Shrinkage-form weight when the density fails: the error is propagated. -/
theorem wd_weight_err (m : WoodProperties) (e : ElementProperties) (mc : ℚ)
    (err : CalcError) (h0 : 0 ≤ mc)
    (hdim : ¬(e.width < 0 ∨ e.depth < 0 ∨ e.length < 0))
    (hd : WoodDensity.calculate_density_at_moisture_content m (PyValue.num mc) =
      Except.error err) :
    WoodDensity.calculate_weight_at_moisture_content m e (PyValue.num mc) =
      Except.error err := by
  rw [wd_weight_eval m e mc h0 hdim, hd]

/-- C1: the claim asserts that density is continuous at the fibre
saturation point.  The ratio form of `src/app.py` is, but the
shrinkage-factor form of `src/wood_density.py` is not: with
`sg = 1, fsp = 30` the density at `mc = 30` is `1000` while just above
the fibre saturation point (`mc = 31`, where the code sets `a = 1.0`)
it is `200000 / 253 ≈ 790.5` — the code evaluated at the failing input. -/
theorem C1_shrinkage_form_discontinuous_at_fsp :
    WoodDensity.calculate_density_at_moisture_content ⟨"w", 1, 30⟩ (PyValue.num 30) =
      Except.ok 1000 ∧
    WoodDensity.calculate_density_at_moisture_content ⟨"w", 1, 30⟩ (PyValue.num 31) =
      Except.ok (200000 / 253) ∧
    (1000 : ℚ) ≠ 200000 / 253 := by
  refine ⟨?_, ?_, ?_⟩ <;> norm_num [WoodDensity.calculate_density_at_moisture_content]

/-- C2: the two density implementations are not equivalent: at
`sg = 0.55, fsp = 30, mc = 18` the ratio form of `src/app.py` and the
shrinkage-factor form of `src/wood_density.py` return different values. -/
theorem C2_two_density_implementations_differ :
    ∃ (m : WoodProperties) (mc : ℚ),
      0 < m.specific_gravity ∧ 0 < m.fibre_saturation_point ∧ 0 ≤ mc ∧
      App.calculate_density_at_moisture_content m (PyValue.num mc) ≠
        WoodDensity.calculate_density_at_moisture_content m (PyValue.num mc) := by
  refine ⟨⟨"w", 0.55, 30⟩, 18, by norm_num, by norm_num, by norm_num, ?_⟩
  norm_num [App.calculate_density_at_moisture_content,
    WoodDensity.calculate_density_at_moisture_content]

/-- C4: the claim asserts that `fibre_saturation_point = 0` is rejected
with an `InvalidArgument` error.  Instead, validation (which only rejects
`fsp < 0`) passes, and the shrinkage-factor form of `src/wood_density.py`
divides by zero at `mc = 0` (an unguarded `ZeroDivisionError`), while the
ratio form of `src/app.py` returns a density with no error at all —
the code evaluated at the failing input. -/
theorem C4_fsp_zero_not_rejected :
    WoodDensity.calculate_density_at_moisture_content ⟨"w", 0.7, 0⟩ (PyValue.num 0) =
      Except.error CalcError.zeroDivision ∧
    WoodDensity.calculate_density_at_moisture_content ⟨"w", 0.7, 0⟩ (PyValue.num 0) ≠
      Except.error CalcError.invalidArgument ∧
    App.calculate_density_at_moisture_content ⟨"w", 0.7, 0⟩ (PyValue.num 0) =
      Except.ok 700 := by
  refine ⟨?_, ?_, ?_⟩
  · norm_num [WoodDensity.calculate_density_at_moisture_content]
  · norm_num [WoodDensity.calculate_density_at_moisture_content]
    decide
  · norm_num [App.calculate_density_at_moisture_content]

/-- C5: the concrete scenario of the spec, under the ratio form of
`src/app.py`: for `sg = 0.55, fsp = 30`, element `0.05 × 0.15 × 2.5` m
and `mc = 18`, the density is `0.55 * 1000 * (1 + 0.18) / (1 + 0.30 * 0.55)
= 649 / 1.165` (≈ 557.08 kg/m³) and the weight is `0.01875` times that
density (≈ 10.45 kg). -/
theorem C5_concrete_scenario_ratio_form :
    App.calculate_density_at_moisture_content ⟨"w", 0.55, 30⟩ (PyValue.num 18) =
      Except.ok (0.55 * 1000 * (1 + 0.18) / (1 + 0.30 * 0.55)) ∧
    App.calculate_density_at_moisture_content ⟨"w", 0.55, 30⟩ (PyValue.num 18) =
      Except.ok (649 / 1.165) ∧
    App.calculate_weight_at_moisture_content ⟨"w", 0.55, 30⟩ ⟨"e", 0.05, 0.15, 2.5⟩
      (PyValue.num 18) = Except.ok (0.01875 * (649 / 1.165)) := by
  refine ⟨?_, ?_, ?_⟩ <;>
    norm_num [App.calculate_density_at_moisture_content,
      App.calculate_weight_at_moisture_content]

/-- C6: for valid inputs (numeric `mc ≥ 0`, `fsp ≥ 0`, all dimensions
`≥ 0`), each weight function returns exactly
`width * depth * length * density`, and when the density computation
fails the weight computation fails with the same error unchanged —
for both the ratio form of `src/app.py` and the shrinkage-factor form
of `src/wood_density.py`. -/
theorem C6_weight_delegates_to_density (m : WoodProperties) (e : ElementProperties)
    (mc : ℚ) (h0 : 0 ≤ mc) (_hfsp : 0 ≤ m.fibre_saturation_point)
    (hw : 0 ≤ e.width) (hd : 0 ≤ e.depth) (hl : 0 ≤ e.length) :
    (∀ d : ℚ, App.calculate_density_at_moisture_content m (PyValue.num mc) =
        Except.ok d →
      App.calculate_weight_at_moisture_content m e (PyValue.num mc) =
        Except.ok (e.width * e.depth * e.length * d)) ∧
    (∀ err : CalcError, App.calculate_density_at_moisture_content m (PyValue.num mc) =
        Except.error err →
      App.calculate_weight_at_moisture_content m e (PyValue.num mc) =
        Except.error err) ∧
    (∀ d : ℚ, WoodDensity.calculate_density_at_moisture_content m (PyValue.num mc) =
        Except.ok d →
      WoodDensity.calculate_weight_at_moisture_content m e (PyValue.num mc) =
        Except.ok (e.width * e.depth * e.length * d)) ∧
    (∀ err : CalcError, WoodDensity.calculate_density_at_moisture_content m
        (PyValue.num mc) = Except.error err →
      WoodDensity.calculate_weight_at_moisture_content m e (PyValue.num mc) =
        Except.error err) := by
  have hdim : ¬(e.width < 0 ∨ e.depth < 0 ∨ e.length < 0) := by
    push_neg
    exact ⟨hw, hd, hl⟩
  exact ⟨fun d hx => app_weight_ok m e mc d h0 hdim hx,
    fun err hx => app_weight_err m e mc err h0 hdim hx,
    fun d hx => wd_weight_ok m e mc d h0 hdim hx,
    fun err hx => wd_weight_err m e mc err h0 hdim hx⟩

/-- Witness for C6 at a concrete input. -/
theorem C6_weight_delegates_to_density_witness :
    (∀ d : ℚ, App.calculate_density_at_moisture_content ⟨"w", 0.7, 25⟩
        (PyValue.num 12) = Except.ok d →
      App.calculate_weight_at_moisture_content ⟨"w", 0.7, 25⟩ ⟨"e", 0.2, 0.05, 2.5⟩
        (PyValue.num 12) = Except.ok (0.2 * 0.05 * 2.5 * d)) ∧
    (∀ err : CalcError, App.calculate_density_at_moisture_content ⟨"w", 0.7, 25⟩
        (PyValue.num 12) = Except.error err →
      App.calculate_weight_at_moisture_content ⟨"w", 0.7, 25⟩ ⟨"e", 0.2, 0.05, 2.5⟩
        (PyValue.num 12) = Except.error err) ∧
    (∀ d : ℚ, WoodDensity.calculate_density_at_moisture_content ⟨"w", 0.7, 25⟩
        (PyValue.num 12) = Except.ok d →
      WoodDensity.calculate_weight_at_moisture_content ⟨"w", 0.7, 25⟩
        ⟨"e", 0.2, 0.05, 2.5⟩ (PyValue.num 12) = Except.ok (0.2 * 0.05 * 2.5 * d)) ∧
    (∀ err : CalcError, WoodDensity.calculate_density_at_moisture_content ⟨"w", 0.7, 25⟩
        (PyValue.num 12) = Except.error err →
      WoodDensity.calculate_weight_at_moisture_content ⟨"w", 0.7, 25⟩
        ⟨"e", 0.2, 0.05, 2.5⟩ (PyValue.num 12) = Except.error err) :=
  C6_weight_delegates_to_density ⟨"w", 0.7, 25⟩ ⟨"e", 0.2, 0.05, 2.5⟩ 12
    (by norm_num) (by norm_num) (by norm_num) (by norm_num) (by norm_num)

/-- C8: for every numeric moisture content below zero, both density
functions and both weight functions fail with the `InvalidArgument`
error, whatever the material and geometry. -/
theorem C8_negative_moisture_invalid_argument (m : WoodProperties)
    (e : ElementProperties) (mc : ℚ) (h : mc < 0) :
    WoodDensity.calculate_density_at_moisture_content m (PyValue.num mc) =
      Except.error CalcError.invalidArgument ∧
    App.calculate_density_at_moisture_content m (PyValue.num mc) =
      Except.error CalcError.invalidArgument ∧
    WoodDensity.calculate_weight_at_moisture_content m e (PyValue.num mc) =
      Except.error CalcError.invalidArgument ∧
    App.calculate_weight_at_moisture_content m e (PyValue.num mc) =
      Except.error CalcError.invalidArgument := by
  refine ⟨?_, ?_, ?_, ?_⟩ <;>
    simp only [WoodDensity.calculate_density_at_moisture_content,
      App.calculate_density_at_moisture_content,
      WoodDensity.calculate_weight_at_moisture_content,
      App.calculate_weight_at_moisture_content, if_pos h]

/-- Witness for C8 at a concrete input. -/
theorem C8_negative_moisture_invalid_argument_witness :
    WoodDensity.calculate_density_at_moisture_content ⟨"w", 0.7, 25⟩
      (PyValue.num (-5)) = Except.error CalcError.invalidArgument ∧
    App.calculate_density_at_moisture_content ⟨"w", 0.7, 25⟩
      (PyValue.num (-5)) = Except.error CalcError.invalidArgument ∧
    WoodDensity.calculate_weight_at_moisture_content ⟨"w", 0.7, 25⟩
      ⟨"e", 0.2, 0.05, 2.5⟩ (PyValue.num (-5)) = Except.error CalcError.invalidArgument ∧
    App.calculate_weight_at_moisture_content ⟨"w", 0.7, 25⟩
      ⟨"e", 0.2, 0.05, 2.5⟩ (PyValue.num (-5)) = Except.error CalcError.invalidArgument :=
  C8_negative_moisture_invalid_argument ⟨"w", 0.7, 25⟩ ⟨"e", 0.2, 0.05, 2.5⟩ (-5)
    (by norm_num)

/-- C9: for every non-numeric moisture content (modelled as a string),
both density functions and both weight functions fail with the
`InvalidType` error, an error kind distinct from `InvalidArgument`. -/
theorem C9_non_numeric_invalid_type (m : WoodProperties) (e : ElementProperties)
    (s : String) :
    WoodDensity.calculate_density_at_moisture_content m (PyValue.str s) =
      Except.error CalcError.invalidType ∧
    App.calculate_density_at_moisture_content m (PyValue.str s) =
      Except.error CalcError.invalidType ∧
    WoodDensity.calculate_weight_at_moisture_content m e (PyValue.str s) =
      Except.error CalcError.invalidType ∧
    App.calculate_weight_at_moisture_content m e (PyValue.str s) =
      Except.error CalcError.invalidType ∧
    CalcError.invalidType ≠ CalcError.invalidArgument :=
  ⟨rfl, rfl, rfl, rfl, by decide⟩

/-- C7: given a numeric moisture content `≥ 0` and a valid material
(positive specific gravity, positive fibre saturation point — the spec
treats a zero fibre saturation point as an invalid argument), each
weight function fails with `InvalidArgument` exactly when some dimension
is negative, and an element with a zero dimension (the others
non-negative) yields weight exactly `0`, not an error — for both
implementations. -/
theorem C7_dimension_validation_iff (m : WoodProperties) (e : ElementProperties)
    (mc : ℚ) (h0 : 0 ≤ mc) (hsg : 0 < m.specific_gravity)
    (hfsp : 0 < m.fibre_saturation_point) :
    (App.calculate_weight_at_moisture_content m e (PyValue.num mc) =
        Except.error CalcError.invalidArgument ↔
      (e.width < 0 ∨ e.depth < 0 ∨ e.length < 0)) ∧
    (WoodDensity.calculate_weight_at_moisture_content m e (PyValue.num mc) =
        Except.error CalcError.invalidArgument ↔
      (e.width < 0 ∨ e.depth < 0 ∨ e.length < 0)) ∧
    (0 ≤ e.width → 0 ≤ e.depth → 0 ≤ e.length →
      (e.width = 0 ∨ e.depth = 0 ∨ e.length = 0) →
      App.calculate_weight_at_moisture_content m e (PyValue.num mc) = Except.ok 0 ∧
      WoodDensity.calculate_weight_at_moisture_content m e (PyValue.num mc) =
        Except.ok 0) := by
  have hAppOk : ∀ hdim : ¬(e.width < 0 ∨ e.depth < 0 ∨ e.length < 0),
      ∃ d, App.calculate_weight_at_moisture_content m e (PyValue.num mc) =
        Except.ok (e.width * e.depth * e.length * d) := by
    intro hdim
    obtain ⟨d, hd⟩ := app_density_ok m mc hsg.le hfsp.le h0
    exact ⟨d, app_weight_ok m e mc d h0 hdim hd⟩
  have hWdOk : ∀ hdim : ¬(e.width < 0 ∨ e.depth < 0 ∨ e.length < 0),
      ∃ d, WoodDensity.calculate_weight_at_moisture_content m e (PyValue.num mc) =
        Except.ok (e.width * e.depth * e.length * d) := by
    intro hdim
    obtain ⟨d, hd⟩ := wd_density_ok m mc hsg.le hfsp h0
    exact ⟨d, wd_weight_ok m e mc d h0 hdim hd⟩
  refine ⟨⟨?_, ?_⟩, ⟨?_, ?_⟩, ?_⟩
  · intro herr
    by_contra hdim
    obtain ⟨d, hok⟩ := hAppOk hdim
    rw [hok] at herr
    exact absurd herr (by simp)
  · intro hdim
    simp only [App.calculate_weight_at_moisture_content, if_neg (not_lt.mpr h0),
      if_pos hdim]
  · intro herr
    by_contra hdim
    obtain ⟨d, hok⟩ := hWdOk hdim
    rw [hok] at herr
    exact absurd herr (by simp)
  · intro hdim
    simp only [WoodDensity.calculate_weight_at_moisture_content,
      if_neg (not_lt.mpr h0), if_pos hdim]
  · intro hw hd hl hzero
    have hdim : ¬(e.width < 0 ∨ e.depth < 0 ∨ e.length < 0) := by
      push_neg
      exact ⟨hw, hd, hl⟩
    have hvol : e.width * e.depth * e.length = 0 := by
      rcases hzero with h | h | h <;> simp [h]
    obtain ⟨dA, hA⟩ := hAppOk hdim
    obtain ⟨dW, hW⟩ := hWdOk hdim
    rw [hvol, zero_mul] at hA hW
    exact ⟨hA, hW⟩

/-- Witness for C7 at a concrete input. -/
theorem C7_dimension_validation_iff_witness :
    (App.calculate_weight_at_moisture_content ⟨"w", 0.55, 30⟩ ⟨"e", 0, 0.15, 2.5⟩
        (PyValue.num 18) = Except.error CalcError.invalidArgument ↔
      ((0 : ℚ) < 0 ∨ (0.15 : ℚ) < 0 ∨ (2.5 : ℚ) < 0)) ∧
    (WoodDensity.calculate_weight_at_moisture_content ⟨"w", 0.55, 30⟩
        ⟨"e", 0, 0.15, 2.5⟩ (PyValue.num 18) = Except.error CalcError.invalidArgument ↔
      ((0 : ℚ) < 0 ∨ (0.15 : ℚ) < 0 ∨ (2.5 : ℚ) < 0)) ∧
    ((0 : ℚ) ≤ 0 → (0 : ℚ) ≤ 0.15 → (0 : ℚ) ≤ 2.5 →
      ((0 : ℚ) = 0 ∨ (0.15 : ℚ) = 0 ∨ (2.5 : ℚ) = 0) →
      App.calculate_weight_at_moisture_content ⟨"w", 0.55, 30⟩ ⟨"e", 0, 0.15, 2.5⟩
        (PyValue.num 18) = Except.ok 0 ∧
      WoodDensity.calculate_weight_at_moisture_content ⟨"w", 0.55, 30⟩
        ⟨"e", 0, 0.15, 2.5⟩ (PyValue.num 18) = Except.ok 0) :=
  C7_dimension_validation_iff ⟨"w", 0.55, 30⟩ ⟨"e", 0, 0.15, 2.5⟩ 18
    (by norm_num) (by norm_num) (by norm_num)

/-- C10: neither density implementation validates the specific gravity —
with a numeric moisture content `≥ 0` and a fibre saturation point `≥ 0`
every specific gravity, zero or negative included, passes validation
(the result is never an `InvalidArgument` or `InvalidType` error) — and
for concrete materials with negative specific gravity the denominator of
each formula vanishes and the computation divides by zero
(a `ZeroDivisionError`) instead of signalling a domain error. -/
theorem C10_specific_gravity_not_validated :
    (∀ (m : WoodProperties) (mc : ℚ), 0 ≤ mc → 0 ≤ m.fibre_saturation_point →
      App.calculate_density_at_moisture_content m (PyValue.num mc) ≠
        Except.error CalcError.invalidArgument ∧
      App.calculate_density_at_moisture_content m (PyValue.num mc) ≠
        Except.error CalcError.invalidType ∧
      WoodDensity.calculate_density_at_moisture_content m (PyValue.num mc) ≠
        Except.error CalcError.invalidArgument ∧
      WoodDensity.calculate_density_at_moisture_content m (PyValue.num mc) ≠
        Except.error CalcError.invalidType) ∧
    (⟨"w", -1, 100⟩ : WoodProperties).specific_gravity < 0 ∧
    App.calculate_density_at_moisture_content ⟨"w", -1, 100⟩ (PyValue.num 10) =
      Except.error CalcError.zeroDivision ∧
    (⟨"w", -200 / 53, 30⟩ : WoodProperties).specific_gravity < 0 ∧
    WoodDensity.calculate_density_at_moisture_content ⟨"w", -200 / 53, 30⟩
      (PyValue.num 0) = Except.error CalcError.zeroDivision := by
  refine ⟨?_, by norm_num, ?_, by norm_num, ?_⟩
  · intro m mc h0 hfsp
    refine ⟨?_, ?_, ?_, ?_⟩ <;>
    · simp only [App.calculate_density_at_moisture_content,
        WoodDensity.calculate_density_at_moisture_content,
        if_neg (not_lt.mpr h0), if_neg (not_lt.mpr hfsp)]
      repeat' split
      all_goals simp
  · norm_num [App.calculate_density_at_moisture_content]
  · norm_num [WoodDensity.calculate_density_at_moisture_content]

/-- Witness for C10 at a concrete input. -/
theorem C10_specific_gravity_not_validated_witness :
    App.calculate_density_at_moisture_content ⟨"w", -0.5, 30⟩ (PyValue.num 12) ≠
      Except.error CalcError.invalidArgument ∧
    App.calculate_density_at_moisture_content ⟨"w", -0.5, 30⟩ (PyValue.num 12) ≠
      Except.error CalcError.invalidType ∧
    WoodDensity.calculate_density_at_moisture_content ⟨"w", -0.5, 30⟩
      (PyValue.num 12) ≠ Except.error CalcError.invalidArgument ∧
    WoodDensity.calculate_density_at_moisture_content ⟨"w", -0.5, 30⟩
      (PyValue.num 12) ≠ Except.error CalcError.invalidType :=
  C10_specific_gravity_not_validated.1 ⟨"w", -0.5, 30⟩ 12 (by norm_num) (by norm_num)

/-- The ratio-form density value is monotone in the moisture content
(for fixed material with non-negative specific gravity and fibre
saturation point). -/
theorem app_density_value_mono (m : WoodProperties) (mc₁ mc₂ : ℚ)
    (hsg : 0 ≤ m.specific_gravity) (hfsp : 0 ≤ m.fibre_saturation_point)
    (h12 : mc₁ ≤ mc₂) :
    m.specific_gravity * 1000 * ((mc₁ / 100) + 1) /
        ((m.fibre_saturation_point / 100) * m.specific_gravity + 1) ≤
      m.specific_gravity * 1000 * ((mc₂ / 100) + 1) /
        ((m.fibre_saturation_point / 100) * m.specific_gravity + 1) := by
  have h1 : (0 : ℚ) ≤ (m.fibre_saturation_point / 100) * m.specific_gravity :=
    mul_nonneg (div_nonneg hfsp (by norm_num)) hsg
  have hden : (0 : ℚ) < (m.fibre_saturation_point / 100) * m.specific_gravity + 1 := by
    linarith
  refine (div_le_div_iff_of_pos_right hden).mpr ?_
  have h2 : mc₁ / 100 ≤ mc₂ / 100 := by linarith
  nlinarith [mul_nonneg hsg (sub_nonneg.mpr h2)]

/-- The shrinkage-form density value is monotone in the moisture content
on the bound-water region `[0, fsp]`. -/
theorem wd_density_value_mono (m : WoodProperties) (mc₁ mc₂ : ℚ)
    (hsg : 0 ≤ m.specific_gravity) (hfsp : 0 < m.fibre_saturation_point)
    (h12 : mc₁ ≤ mc₂) (h2 : mc₂ ≤ m.fibre_saturation_point) :
    m.specific_gravity /
        (1 + 0.265 * ((m.fibre_saturation_point - mc₁) / m.fibre_saturation_point) *
          m.specific_gravity) * 1000 ≤
      m.specific_gravity /
        (1 + 0.265 * ((m.fibre_saturation_point - mc₂) / m.fibre_saturation_point) *
          m.specific_gravity) * 1000 := by
  have ha₂ : (0 : ℚ) ≤ (m.fibre_saturation_point - mc₂) / m.fibre_saturation_point :=
    div_nonneg (by linarith) hfsp.le
  have ha : (m.fibre_saturation_point - mc₂) / m.fibre_saturation_point ≤
      (m.fibre_saturation_point - mc₁) / m.fibre_saturation_point :=
    (div_le_div_iff_of_pos_right hfsp).mpr (by linarith)
  have ha₁ : (0 : ℚ) ≤ (m.fibre_saturation_point - mc₁) / m.fibre_saturation_point :=
    le_trans ha₂ ha
  have hD₂ : (0 : ℚ) < 1 + 0.265 *
      ((m.fibre_saturation_point - mc₂) / m.fibre_saturation_point) *
      m.specific_gravity := by
    nlinarith [mul_nonneg (mul_nonneg (by norm_num : (0 : ℚ) ≤ 0.265) ha₂) hsg]
  have hDle : 1 + 0.265 *
        ((m.fibre_saturation_point - mc₂) / m.fibre_saturation_point) *
        m.specific_gravity ≤
      1 + 0.265 *
        ((m.fibre_saturation_point - mc₁) / m.fibre_saturation_point) *
        m.specific_gravity := by
    nlinarith [mul_nonneg (sub_nonneg.mpr ha) hsg]
  have hdiv := div_le_div_of_nonneg_left hsg hD₂ hDle
  linarith [hdiv]

/-- C3: for a fixed valid material (`sg > 0`, `fsp > 0`) and fixed
geometry with non-negative dimensions, each weight function succeeds and
is non-decreasing in the moisture content on `[0, fsp]`, and is constant
across all moisture contents strictly above `fsp` — for both the ratio
form of `src/app.py` and the shrinkage-factor form of
`src/wood_density.py`. -/
theorem C3_weight_monotone_then_constant (m : WoodProperties) (e : ElementProperties)
    (hsg : 0 < m.specific_gravity) (hfsp : 0 < m.fibre_saturation_point)
    (hw : 0 ≤ e.width) (hd : 0 ≤ e.depth) (hl : 0 ≤ e.length) :
    (∀ mc₁ mc₂ : ℚ, 0 ≤ mc₁ → mc₁ ≤ mc₂ → mc₂ ≤ m.fibre_saturation_point →
      (∃ w₁ w₂ : ℚ,
        App.calculate_weight_at_moisture_content m e (PyValue.num mc₁) =
          Except.ok w₁ ∧
        App.calculate_weight_at_moisture_content m e (PyValue.num mc₂) =
          Except.ok w₂ ∧ w₁ ≤ w₂) ∧
      (∃ w₁ w₂ : ℚ,
        WoodDensity.calculate_weight_at_moisture_content m e (PyValue.num mc₁) =
          Except.ok w₁ ∧
        WoodDensity.calculate_weight_at_moisture_content m e (PyValue.num mc₂) =
          Except.ok w₂ ∧ w₁ ≤ w₂)) ∧
    (∀ mc₁ mc₂ : ℚ, m.fibre_saturation_point < mc₁ → m.fibre_saturation_point < mc₂ →
      App.calculate_weight_at_moisture_content m e (PyValue.num mc₁) =
        App.calculate_weight_at_moisture_content m e (PyValue.num mc₂) ∧
      WoodDensity.calculate_weight_at_moisture_content m e (PyValue.num mc₁) =
        WoodDensity.calculate_weight_at_moisture_content m e (PyValue.num mc₂)) := by
  have hdim : ¬(e.width < 0 ∨ e.depth < 0 ∨ e.length < 0) := by
    push_neg
    exact ⟨hw, hd, hl⟩
  have hvol : (0 : ℚ) ≤ e.width * e.depth * e.length :=
    mul_nonneg (mul_nonneg hw hd) hl
  constructor
  · intro mc₁ mc₂ h1 h12 h2
    have h1' : (0 : ℚ) ≤ mc₂ := le_trans h1 h12
    constructor
    · refine ⟨_, _,
        app_weight_ok m e mc₁ _ h1 hdim
          (app_density_eval_low m mc₁ hsg.le hfsp.le h1 (le_trans h12 h2)),
        app_weight_ok m e mc₂ _ h1' hdim
          (app_density_eval_low m mc₂ hsg.le hfsp.le h1' h2), ?_⟩
      exact mul_le_mul_of_nonneg_left
        (app_density_value_mono m mc₁ mc₂ hsg.le hfsp.le h12) hvol
    · refine ⟨_, _,
        wd_weight_ok m e mc₁ _ h1 hdim
          (wd_density_eval_low m mc₁ hsg.le hfsp h1 (le_trans h12 h2)),
        wd_weight_ok m e mc₂ _ h1' hdim
          (wd_density_eval_low m mc₂ hsg.le hfsp h1' h2), ?_⟩
      exact mul_le_mul_of_nonneg_left
        (wd_density_value_mono m mc₁ mc₂ hsg.le hfsp h12 h2) hvol
  · intro mc₁ mc₂ hg1 hg2
    constructor
    · rw [app_weight_ok m e mc₁ _ (le_of_lt (lt_trans hfsp hg1)) hdim
          (app_density_eval_high m mc₁ hsg.le hfsp.le hg1),
        app_weight_ok m e mc₂ _ (le_of_lt (lt_trans hfsp hg2)) hdim
          (app_density_eval_high m mc₂ hsg.le hfsp.le hg2)]
    · rw [wd_weight_ok m e mc₁ _ (le_of_lt (lt_trans hfsp hg1)) hdim
          (wd_density_eval_high m mc₁ hsg.le hfsp.le hg1),
        wd_weight_ok m e mc₂ _ (le_of_lt (lt_trans hfsp hg2)) hdim
          (wd_density_eval_high m mc₂ hsg.le hfsp.le hg2)]

/-- Witness for C3 at a concrete material and geometry. -/
theorem C3_weight_monotone_then_constant_witness :
    (∀ mc₁ mc₂ : ℚ, 0 ≤ mc₁ → mc₁ ≤ mc₂ →
      mc₂ ≤ (⟨"w", 0.55, 30⟩ : WoodProperties).fibre_saturation_point →
      (∃ w₁ w₂ : ℚ,
        App.calculate_weight_at_moisture_content ⟨"w", 0.55, 30⟩
          ⟨"e", 0.05, 0.15, 2.5⟩ (PyValue.num mc₁) = Except.ok w₁ ∧
        App.calculate_weight_at_moisture_content ⟨"w", 0.55, 30⟩
          ⟨"e", 0.05, 0.15, 2.5⟩ (PyValue.num mc₂) = Except.ok w₂ ∧ w₁ ≤ w₂) ∧
      (∃ w₁ w₂ : ℚ,
        WoodDensity.calculate_weight_at_moisture_content ⟨"w", 0.55, 30⟩
          ⟨"e", 0.05, 0.15, 2.5⟩ (PyValue.num mc₁) = Except.ok w₁ ∧
        WoodDensity.calculate_weight_at_moisture_content ⟨"w", 0.55, 30⟩
          ⟨"e", 0.05, 0.15, 2.5⟩ (PyValue.num mc₂) = Except.ok w₂ ∧ w₁ ≤ w₂)) ∧
    (∀ mc₁ mc₂ : ℚ, (⟨"w", 0.55, 30⟩ : WoodProperties).fibre_saturation_point < mc₁ →
      (⟨"w", 0.55, 30⟩ : WoodProperties).fibre_saturation_point < mc₂ →
      App.calculate_weight_at_moisture_content ⟨"w", 0.55, 30⟩
          ⟨"e", 0.05, 0.15, 2.5⟩ (PyValue.num mc₁) =
        App.calculate_weight_at_moisture_content ⟨"w", 0.55, 30⟩
          ⟨"e", 0.05, 0.15, 2.5⟩ (PyValue.num mc₂) ∧
      WoodDensity.calculate_weight_at_moisture_content ⟨"w", 0.55, 30⟩
          ⟨"e", 0.05, 0.15, 2.5⟩ (PyValue.num mc₁) =
        WoodDensity.calculate_weight_at_moisture_content ⟨"w", 0.55, 30⟩
          ⟨"e", 0.05, 0.15, 2.5⟩ (PyValue.num mc₂)) :=
  C3_weight_monotone_then_constant ⟨"w", 0.55, 30⟩ ⟨"e", 0.05, 0.15, 2.5⟩
    (by norm_num) (by norm_num) (by norm_num) (by norm_num) (by norm_num)
